import Mathlib

/-!
Shallow embedding of the Udemy async web scraper
(`src/scraper/fetch_pages.py`, `src/scraper/parse_data.py`,
`src/scraper/checker.py`, `src/main.py`) and proofs about it.

HTML documents are modelled by what the BeautifulSoup selectors of the
source would find in them: each selector that the code applies to a page
becomes an `Option String` field (`none` = the expected markup is absent,
so the corresponding `soup.find(...)` chain raises / returns nothing).
Python `try/except` around a field extraction becomes `Option.getD`,
an uncaught failing attribute access becomes `Except.error`.
-/

namespace UdemyScraper

/-- A stage-2 course-detail page, as seen by the thirteen selector chains of
`parse_detail_course_links` (src/scraper/parse_data.py, lines 144-196).
Each field is the text/attribute that the corresponding selector chain
extracts; `none` means the expected markup is absent and the chain raises. -/
structure DetailHtml where
  course_title : Option String
  course_subtitle : Option String
  course_num_students : Option String
  course_rating : Option String
  course_created_by : Option String
  course_last_updated : Option String
  course_url : Option String
  instructor_name : Option String
  instructor_ratings : Option String
  instructor_reviews : Option String
  instructor_students : Option String
  instructor_courses : Option String
  instructor_url : Option String
  deriving DecidableEq, Repr

/-- The dictionary of thirteen column lists built by
`parse_detail_course_links` (src/scraper/parse_data.py, lines 118-133). -/
structure DetailData where
  course_title : List String
  course_subtitle : List String
  course_num_students : List String
  course_rating : List String
  course_created_by : List String
  course_last_updated : List String
  course_url : List String
  instructor_name : List String
  instructor_ratings : List String
  instructor_reviews : List String
  instructor_students : List String
  instructor_courses : List String
  instructor_url : List String
  deriving DecidableEq, Repr

/-- `parse_detail_course_links` (src/scraper/parse_data.py, lines 72-198).
The loop walks the input list; a `None` HTML content is skipped
(`continue`, line 139); for a present page every one of the thirteen
`try: append(<selector>.text) except: append("N/A")` blocks appends the
selector result or the sentinel `"N/A"`.  The loop appends at the end of
each column list, which is the same as consing the current record onto the
result of the rest. -/
def parse_detail_course_links : List (Option DetailHtml) → DetailData
  | [] => ⟨[], [], [], [], [], [], [], [], [], [], [], [], []⟩
  | none :: rest => parse_detail_course_links rest
  | some h :: rest =>
    let d := parse_detail_course_links rest
    ⟨h.course_title.getD "N/A" :: d.course_title,
     h.course_subtitle.getD "N/A" :: d.course_subtitle,
     h.course_num_students.getD "N/A" :: d.course_num_students,
     h.course_rating.getD "N/A" :: d.course_rating,
     h.course_created_by.getD "N/A" :: d.course_created_by,
     h.course_last_updated.getD "N/A" :: d.course_last_updated,
     h.course_url.getD "N/A" :: d.course_url,
     h.instructor_name.getD "N/A" :: d.instructor_name,
     h.instructor_ratings.getD "N/A" :: d.instructor_ratings,
     h.instructor_reviews.getD "N/A" :: d.instructor_reviews,
     h.instructor_students.getD "N/A" :: d.instructor_students,
     h.instructor_courses.getD "N/A" :: d.instructor_courses,
     h.instructor_url.getD "N/A" :: d.instructor_url⟩

/-- A stage-3 instructor page, as seen by the seven selector chains of
`parse_instructor_links` (src/scraper/parse_data.py, lines 238-266). -/
structure InstructorHtml where
  instructor_name : Option String
  instructor_website : Option String
  twitter : Option String
  linkedin : Option String
  facebook : Option String
  youtube : Option String
  instructor_url : Option String
  deriving DecidableEq, Repr

/-- The dictionary of seven column lists built by `parse_instructor_links`
(src/scraper/parse_data.py, lines 221-229). -/
structure InstructorData where
  instructor_name : List String
  instructor_website : List String
  twitter : List String
  linkedin : List String
  facebook : List String
  youtube : List String
  instructor_url : List String
  deriving DecidableEq, Repr

/-- `parse_instructor_links` (src/scraper/parse_data.py, lines 201-268).
Same shape as `parse_detail_course_links`: `None` inputs are skipped
(line 233), each present page contributes one `value-or-"N/A"` element to
every one of the seven column lists. -/
def parse_instructor_links : List (Option InstructorHtml) → InstructorData
  | [] => ⟨[], [], [], [], [], [], []⟩
  | none :: rest => parse_instructor_links rest
  | some h :: rest =>
    let d := parse_instructor_links rest
    ⟨h.instructor_name.getD "N/A" :: d.instructor_name,
     h.instructor_website.getD "N/A" :: d.instructor_website,
     h.twitter.getD "N/A" :: d.twitter,
     h.linkedin.getD "N/A" :: d.linkedin,
     h.facebook.getD "N/A" :: d.facebook,
     h.youtube.getD "N/A" :: d.youtube,
     h.instructor_url.getD "N/A" :: d.instructor_url⟩

/-- A stage-1 search-results page, as seen by `parse_course_links`
(src/scraper/parse_data.py, lines 20-69).
`h1_search_title` is the text of the `h1` search-header element (`none`
when the element is absent, in which case `.text` on `None` raises an
`AttributeError`).  `h3_anchors` holds, for each `h3` course-title
element found, the `href` of the anchor inside it (`none` when the `h3`
has no anchor or the anchor has no `href`, in which case the
`.get("href")` / `.strip()` chain raises). -/
structure CoursePageHtml where
  h1_search_title : Option String
  h3_anchors : List (Option String)
  deriving DecidableEq, Repr

/-- `takeUntilCloseQuote cs` models the tail of the regex
`“([^”]*)”` after the opening `“` has been consumed: the run of
characters up to the next `”`, or `none` when no closing `”` follows. -/
def takeUntilCloseQuote : List Char → Option String
  | [] => none
  | c :: rest =>
    if c = '”' then some ""
    else (takeUntilCloseQuote rest).map (fun s => String.mk (c :: s.data))

/-- `re.search(r"“([^”]*)”", s)` followed by `.group(1)`
(src/scraper/parse_data.py, line 48): scan for the first `“` that is
followed by a closing `”`, and return the characters between them;
`none` when the pattern does not occur (the `re.Match` is `None`). -/
def quotedAfter : List Char → Option String
  | [] => none
  | c :: rest =>
    if c = '“' then
      match takeUntilCloseQuote rest with
      | some s => some s
      | none => quotedAfter rest
    else quotedAfter rest

/-- The quoted search expression extracted from the `h1` text. -/
def findQuoted (s : String) : Option String :=
  quotedAfter s.data

/-- Python `str.strip()`: drop leading and trailing whitespace. -/
def pyStrip (s : String) : String :=
  String.mk
    (((s.data.dropWhile Char.isWhitespace).reverse.dropWhile
        Char.isWhitespace).reverse)

/-- Python `str.startswith(pre)`. -/
def pyStartsWith (s pre : String) : Bool :=
  pre.data.isPrefixOf s.data

/-- The per-anchor loop of `parse_course_links`
(src/scraper/parse_data.py, lines 54-67).  For each `h3` element:
`course_link.find("a").get("href").strip()` raises when the anchor or
its `href` is absent (modelled by `Except.error ()`); links that are
nonempty and start with `"/course/"` are prefixed with the Udemy origin
and appended together with `match.group(1)` — which raises when the
regex match `m` is `none`; other links are skipped. -/
def parse_course_links_loop (m : Option String) :
    List (Option String) → Except Unit (List String × List String)
  | [] => Except.ok ([], [])
  | none :: _ => Except.error ()
  | some href :: rest =>
    let link := pyStrip href
    if link ≠ "" ∧ pyStartsWith link "/course/" then
      let full_link := pyStrip ("https://www.udemy.com" ++ link)
      match m with
      | none => Except.error ()
      | some extracted_text =>
        match parse_course_links_loop m rest with
        | Except.error e => Except.error e
        | Except.ok (links, exprs) =>
          Except.ok (full_link :: links, extracted_text :: exprs)
    else parse_course_links_loop m rest

/-- `parse_course_links` (src/scraper/parse_data.py, lines 20-69).
No `try/except` protects any of its selector chains: a missing `h1`
search header (line 45) raises before the loop, and the loop itself can
raise as described in `parse_course_links_loop`.  On success it returns
the parallel lists of course links and wanted expressions. -/
def parse_course_links (page : CoursePageHtml) :
    Except Unit (List String × List String) :=
  match page.h1_search_title with
  | none => Except.error ()
  | some wanted_expression =>
    parse_course_links_loop (findQuoted wanted_expression) page.h3_anchors

/-- `start_parse_course_links` (src/scraper/parse_data.py, lines 271-304):
skip `None` page contents, parse each present page, and extend the two
accumulated lists.  An exception from `parse_course_links` is not caught
and aborts the call. -/
def start_parse_course_links :
    List (Option CoursePageHtml) → Except Unit (List String × List String)
  | [] => Except.ok ([], [])
  | none :: rest => start_parse_course_links rest
  | some page :: rest =>
    match parse_course_links page with
    | Except.error e => Except.error e
    | Except.ok (links, exprs) =>
      match start_parse_course_links rest with
      | Except.error e => Except.error e
      | Except.ok (links2, exprs2) =>
        Except.ok (links ++ links2, exprs ++ exprs2)

/-- One row of the course-links table: the two columns of the DataFrame
built in `CheckRecords.compare_data_db` (src/scraper/checker.py,
lines 56 and 64-67). -/
structure CourseLinkRow where
  url : String
  wanted_expression : String
  deriving DecidableEq, Repr

/-- The outcome of `CheckRecords.compare_data_db`
(src/scraper/checker.py, lines 33-111): either the run terminates via
Python `exit()` — a `SystemExit` whose process exit code is `0`, i.e. a
normal termination, after an info-level log line — or the method returns
the DataFrame of novel rows. -/
inductive CompareOutcome where
  | earlyExit (exitCode : Nat) (logMsg : String)
  | result (rows : List CourseLinkRow)
  deriving DecidableEq, Repr

/-- `CheckRecords.compare_data_db` (src/scraper/checker.py, lines 33-111)
on a database state `db` (the set of `url` values persisted in the
`CourseLinks` table) and the candidate rows `cand` (the DataFrame built
from the parallel url/expression lists, line 56).
If the candidate DataFrame is empty the run exits (lines 59-61).
The row loop (lines 76-93) keeps, in input order, exactly the rows whose
`url` is not among the persisted urls — the per-row database read
(line 80) selects rows with `CourseLinks.url == url`, exact string
equality, and membership in its `url` column is `db.contains r.url`.
If nothing novel remains the run exits (lines 107-109), else the kept
rows are returned (line 111). -/
def compare_data_db (db : List String) (cand : List CourseLinkRow) :
    CompareOutcome :=
  if cand.isEmpty then
    CompareOutcome.earlyExit 0 "*** No new data to insert ***"
  else if (cand.filter (fun r => !(db.contains r.url))).isEmpty then
    CompareOutcome.earlyExit 0 "*** No new data to insert ***"
  else
    CompareOutcome.result (cand.filter (fun r => !(db.contains r.url)))

/-- The environment of one `fetch_course_links` call
(src/scraper/fetch_pages.py, lines 34-74): whether each of the three
awaited steps inside the `try` block — `page.goto` (line 55),
`page.wait_for_load_state` (line 58, the timeout path), and
`page.content()` (line 61) — raises, and the page content returned by a
successful capture. -/
structure FetchEnv where
  gotoRaises : Bool
  waitRaises : Bool
  contentRaises : Bool
  pageHtml : String
  deriving DecidableEq, Repr

/-- The `try` body of `fetch_course_links`: the three awaited steps in
program order, each aborting the body with its exception. -/
def fetchTryBody (e : FetchEnv) : Except Unit String :=
  if e.gotoRaises then Except.error ()
  else if e.waitRaises then Except.error ()
  else if e.contentRaises then Except.error ()
  else Except.ok e.pageHtml

/-- `fetch_course_links` (src/scraper/fetch_pages.py, lines 34-74).
The `except Exception` arm (lines 69-71) converts any exception from the
`try` body into the failure marker `None`; the `finally` arm (lines
72-74) runs `browser.close()` on both the normal and the exceptional
path.  The result pairs the returned value (`some html` or `none`) with
whether the browser was closed on that exit path. -/
def fetch_course_links (e : FetchEnv) : Option String × Bool :=
  match fetchTryBody e with
  | Except.ok html_content => (some html_content, true)
  | Except.error _ => (none, true)

/-- The slot-filling semantics of `asyncio.gather`
(src/scraper/fetch_pages.py, line 121): `gather` holds one result slot
per task, in task-creation order; whenever a task completes, its result
is written into its own slot, whatever the completion order.
`completeAll f order slots` plays the completion events of `order`
(a list of task indices) onto the slot array. -/
def completeAll (f : ℕ → Option String) (order : List ℕ)
    (slots : List (Option (Option String))) : List (Option (Option String)) :=
  order.foldl (fun acc j => acc.set j (some (f j))) slots

/-- The outcome of the task created for index `i` by
`start_analysis_page_links` (src/scraper/fetch_pages.py, line 116):
`bounded_fetch` awaits the semaphore and then returns exactly
`fetch_course_links(index, urls[index], timeout)` (line 92), whose value
is the first component of the `fetch_course_links` model. -/
def taskOutcome (env : ℕ → String → FetchEnv) (urls : List String)
    (i : ℕ) : Option String :=
  (fetch_course_links (env i (urls.getD i ""))).1

/-- `start_analysis_page_links` (src/scraper/fetch_pages.py, lines
95-127) under a given completion order: one task per url, created in
input order (lines 114-119), awaited by `asyncio.gather` (line 121)
which returns the slot array once every task has completed.
`start_analysis_detail_links` (lines 130-172) and
`start_analysis_instructor_links` (lines 175-219) instantiate the same
semaphore + `bounded_fetch` + `gather` shape on the url column of their
input DataFrame (`return_exceptions=True` on line 166 is inert because
`fetch_course_links` never raises). -/
def start_analysis_page_links (urls : List String)
    (env : ℕ → String → FetchEnv) (order : List ℕ) :
    List (Option (Option String)) :=
  completeAll (taskOutcome env urls) order
    (List.replicate urls.length none)

/-- The observable effects of the merge step of `main_script`
(src/scraper/fetch_pages.py, lines 252-285): the three individual
tables inserted into the database, the merged table when one was
inserted, and the alignment-error log line (the three lengths) when the
merge was refused. -/
structure MergeLog (α β γ : Type) where
  coursePersisted : List α
  detailPersisted : List β
  instrPersisted : List γ
  mergedPersisted : Option (List (α × β × γ))
  alignmentError : Option (ℕ × ℕ × ℕ)

/-- The merge step of `main_script` (src/scraper/fetch_pages.py, lines
252-285).  The three individual tables are inserted unconditionally
(lines 252, 262, 272) before the length check.  If the three row counts
agree (line 276), `pd.concat(..., axis=1)` glues the tables row by row
(all three carry the default `0..n-1` index: `df_course_links` is built
with `ignore_index=True` in `compare_data_db`, the other two are fresh
DataFrames) and the merged table is inserted (lines 278-282); otherwise
the error and the three lengths are logged and nothing merged is
inserted (lines 284-285). -/
def main_script_merge {α β γ : Type} (c : List α) (d : List β)
    (i : List γ) : MergeLog α β γ :=
  if c.length = d.length ∧ d.length = i.length then
    { coursePersisted := c, detailPersisted := d, instrPersisted := i,
      mergedPersisted := some (List.zipWith3 (fun a b g => (a, b, g)) c d i),
      alignmentError := none }
  else
    { coursePersisted := c, detailPersisted := d, instrPersisted := i,
      mergedPersisted := none,
      alignmentError := some (c.length, d.length, i.length) }

/-- The lifecycle of one `bounded_fetch` task with respect to the
admission gate (src/scraper/fetch_pages.py, lines 77-92): not yet
admitted, inside the `async with semaphore` block (the fetch is in
flight), or completed (the `async with` block released the slot on exit,
whether the fetch returned a page or the failure marker). -/
inductive TaskPhase where
  | pending
  | inflight
  | done
  deriving DecidableEq, Repr

/-- The joint state of the semaphore and the batch of tasks:
`avail` is the semaphore counter, `tasks` the phase of each task. -/
structure SemState where
  avail : ℕ
  tasks : List TaskPhase
  deriving DecidableEq, Repr

/-- Number of fetches currently in flight. -/
def inflightCount (s : SemState) : ℕ :=
  s.tasks.countP (fun t => t = TaskPhase.inflight)

/-- The state in which `start_analysis_page_links` launches a batch of
`k` tasks: the semaphore is fresh with `n` permits
(`asyncio.Semaphore(max_concurrent_tasks)`, line 108) and no task has
been admitted yet. -/
def initState (n k : ℕ) : SemState :=
  { avail := n, tasks := List.replicate k TaskPhase.pending }

/-- One scheduler event of the batch.  `acquire` is a pending task
entering its `async with semaphore` block (line 91), possible only when
a permit is available, and it consumes one permit.  `finish` is an
in-flight task leaving the block — on return or on exception — which
releases its permit unconditionally. -/
inductive SemStep : SemState → SemState → Prop where
  | acquire (s : SemState) (t : ℕ) (hlt : t < s.tasks.length)
      (hp : s.tasks.get ⟨t, hlt⟩ = TaskPhase.pending)
      (ha : 0 < s.avail) :
      SemStep s { avail := s.avail - 1,
                  tasks := s.tasks.set t TaskPhase.inflight }
  | finish (s : SemState) (t : ℕ) (hlt : t < s.tasks.length)
      (hp : s.tasks.get ⟨t, hlt⟩ = TaskPhase.inflight) :
      SemStep s { avail := s.avail + 1,
                  tasks := s.tasks.set t TaskPhase.done }

/-- The states a batch run with cap `n` and `k` tasks can reach. -/
inductive SemReachable (n k : ℕ) : SemState → Prop where
  | init : SemReachable n k (initState n k)
  | step {s s2 : SemState} : SemReachable n k s → SemStep s s2 →
      SemReachable n k s2

/-! ### Helper lemmas -/

/-- Every column list produced by `parse_detail_course_links` has one
element per non-`None` input. -/
lemma detail_lengths (inputs : List (Option DetailHtml)) :
    (parse_detail_course_links inputs).course_title.length
        = inputs.countP (fun o => o.isSome)
    ∧ (parse_detail_course_links inputs).course_subtitle.length
        = inputs.countP (fun o => o.isSome)
    ∧ (parse_detail_course_links inputs).course_num_students.length
        = inputs.countP (fun o => o.isSome)
    ∧ (parse_detail_course_links inputs).course_rating.length
        = inputs.countP (fun o => o.isSome)
    ∧ (parse_detail_course_links inputs).course_created_by.length
        = inputs.countP (fun o => o.isSome)
    ∧ (parse_detail_course_links inputs).course_last_updated.length
        = inputs.countP (fun o => o.isSome)
    ∧ (parse_detail_course_links inputs).course_url.length
        = inputs.countP (fun o => o.isSome)
    ∧ (parse_detail_course_links inputs).instructor_name.length
        = inputs.countP (fun o => o.isSome)
    ∧ (parse_detail_course_links inputs).instructor_ratings.length
        = inputs.countP (fun o => o.isSome)
    ∧ (parse_detail_course_links inputs).instructor_reviews.length
        = inputs.countP (fun o => o.isSome)
    ∧ (parse_detail_course_links inputs).instructor_students.length
        = inputs.countP (fun o => o.isSome)
    ∧ (parse_detail_course_links inputs).instructor_courses.length
        = inputs.countP (fun o => o.isSome)
    ∧ (parse_detail_course_links inputs).instructor_url.length
        = inputs.countP (fun o => o.isSome) := by
  induction inputs with
  | nil => simp [parse_detail_course_links]
  | cons head rest ih =>
    cases head with
    | none =>
      simpa [parse_detail_course_links, List.countP_cons] using ih
    | some h =>
      simp only [parse_detail_course_links, List.countP_cons,
        Option.isSome_some, List.length_cons]
      simp_all

/-- Every column list produced by `parse_instructor_links` has one
element per non-`None` input. -/
lemma instructor_lengths (inputs : List (Option InstructorHtml)) :
    (parse_instructor_links inputs).instructor_name.length
        = inputs.countP (fun o => o.isSome)
    ∧ (parse_instructor_links inputs).instructor_website.length
        = inputs.countP (fun o => o.isSome)
    ∧ (parse_instructor_links inputs).twitter.length
        = inputs.countP (fun o => o.isSome)
    ∧ (parse_instructor_links inputs).linkedin.length
        = inputs.countP (fun o => o.isSome)
    ∧ (parse_instructor_links inputs).facebook.length
        = inputs.countP (fun o => o.isSome)
    ∧ (parse_instructor_links inputs).youtube.length
        = inputs.countP (fun o => o.isSome)
    ∧ (parse_instructor_links inputs).instructor_url.length
        = inputs.countP (fun o => o.isSome) := by
  induction inputs with
  | nil => simp [parse_instructor_links]
  | cons head rest ih =>
    cases head with
    | none =>
      simpa [parse_instructor_links, List.countP_cons] using ih
    | some h =>
      simp only [parse_instructor_links, List.countP_cons,
        Option.isSome_some, List.length_cons]
      simp_all

/-! ### Claim theorems: parsing (C2, C4, C10) -/

/-- C2, counterexample.  The claim says a failure slot (`None` entry)
still occupies a position in the output of `parse_detail_course_links`
so that output length equals input length.  On the input `[None]` the
code hits the `continue` branch and produces empty column lists: the
output length is `0`, not the input length `1`. -/
theorem c2_counterexample :
    (parse_detail_course_links [none]).course_title.length
      ≠ ([(none : Option DetailHtml)]).length := by
  decide

/-- C2 as amended: `parse_detail_course_links` and
`parse_instructor_links` drop failure slots rather than emitting
all-"N/A" records for them — a `None` entry contributes nothing to the
output (the output on `none :: rest` is the output on `rest`), and each
column list has one element per non-`None` input, so the output length
is the number of successful fetches, not the input length. -/
theorem c2_amended_failure_slots_dropped
    (rest : List (Option DetailHtml)) (irest : List (Option InstructorHtml)) :
    parse_detail_course_links (none :: rest) = parse_detail_course_links rest
    ∧ (parse_detail_course_links rest).course_title.length
        = rest.countP (fun o => o.isSome)
    ∧ parse_instructor_links (none :: irest) = parse_instructor_links irest
    ∧ (parse_instructor_links irest).instructor_name.length
        = irest.countP (fun o => o.isSome) :=
  ⟨rfl, (detail_lengths rest).1, rfl, (instructor_lengths irest).1⟩

/-- C4, counterexample.  The claim says that for every field of every
one of the three record types a missing piece of markup yields the
`"N/A"` sentinel and never makes the extraction call fail.  For the
course-link record type this is false: `parse_course_links` has no
`try/except`, and on a page whose `h1` search header is absent the
`.text` access raises, so the whole extraction call fails even though
the page contains a perfectly good course anchor. -/
theorem c4_counterexample :
    parse_course_links ⟨none, [some "/course/x"]⟩ = Except.error () := rfl

/-- C4 as amended: per-field `"N/A"` substitution holds for all
thirteen fields of the detail record and all seven fields of the
instructor record — each field of a fetched page contributes its
extracted value, or `"N/A"` when the markup is absent, and the record
is produced either way — but not for the course-link record type:
`parse_course_links` fails outright when its `h1` search header is
absent, whatever the anchors on the page. -/
theorem c4_amended_na_substitution
    (h : DetailHtml) (g : InstructorHtml) (anchors : List (Option String)) :
    parse_detail_course_links [some h]
      = ⟨[h.course_title.getD "N/A"], [h.course_subtitle.getD "N/A"],
         [h.course_num_students.getD "N/A"], [h.course_rating.getD "N/A"],
         [h.course_created_by.getD "N/A"], [h.course_last_updated.getD "N/A"],
         [h.course_url.getD "N/A"], [h.instructor_name.getD "N/A"],
         [h.instructor_ratings.getD "N/A"], [h.instructor_reviews.getD "N/A"],
         [h.instructor_students.getD "N/A"], [h.instructor_courses.getD "N/A"],
         [h.instructor_url.getD "N/A"]⟩
    ∧ parse_instructor_links [some g]
      = ⟨[g.instructor_name.getD "N/A"], [g.instructor_website.getD "N/A"],
         [g.twitter.getD "N/A"], [g.linkedin.getD "N/A"],
         [g.facebook.getD "N/A"], [g.youtube.getD "N/A"],
         [g.instructor_url.getD "N/A"]⟩
    ∧ parse_course_links ⟨none, anchors⟩ = Except.error () :=
  ⟨rfl, rfl, rfl⟩

/-- C10: the record collections built by `parse_detail_course_links`
and `parse_instructor_links` are always rectangular — every column list
has the same length, namely one element per non-`None` input — so a
DataFrame can be built from the dictionary. -/
theorem c10_rectangular_columns
    (ds : List (Option DetailHtml)) (gs : List (Option InstructorHtml)) :
    ((parse_detail_course_links ds).course_title.length
        = ds.countP (fun o => o.isSome)
      ∧ (parse_detail_course_links ds).course_subtitle.length
        = ds.countP (fun o => o.isSome)
      ∧ (parse_detail_course_links ds).course_num_students.length
        = ds.countP (fun o => o.isSome)
      ∧ (parse_detail_course_links ds).course_rating.length
        = ds.countP (fun o => o.isSome)
      ∧ (parse_detail_course_links ds).course_created_by.length
        = ds.countP (fun o => o.isSome)
      ∧ (parse_detail_course_links ds).course_last_updated.length
        = ds.countP (fun o => o.isSome)
      ∧ (parse_detail_course_links ds).course_url.length
        = ds.countP (fun o => o.isSome)
      ∧ (parse_detail_course_links ds).instructor_name.length
        = ds.countP (fun o => o.isSome)
      ∧ (parse_detail_course_links ds).instructor_ratings.length
        = ds.countP (fun o => o.isSome)
      ∧ (parse_detail_course_links ds).instructor_reviews.length
        = ds.countP (fun o => o.isSome)
      ∧ (parse_detail_course_links ds).instructor_students.length
        = ds.countP (fun o => o.isSome)
      ∧ (parse_detail_course_links ds).instructor_courses.length
        = ds.countP (fun o => o.isSome)
      ∧ (parse_detail_course_links ds).instructor_url.length
        = ds.countP (fun o => o.isSome))
    ∧ ((parse_instructor_links gs).instructor_name.length
        = gs.countP (fun o => o.isSome)
      ∧ (parse_instructor_links gs).instructor_website.length
        = gs.countP (fun o => o.isSome)
      ∧ (parse_instructor_links gs).twitter.length
        = gs.countP (fun o => o.isSome)
      ∧ (parse_instructor_links gs).linkedin.length
        = gs.countP (fun o => o.isSome)
      ∧ (parse_instructor_links gs).facebook.length
        = gs.countP (fun o => o.isSome)
      ∧ (parse_instructor_links gs).youtube.length
        = gs.countP (fun o => o.isSome)
      ∧ (parse_instructor_links gs).instructor_url.length
        = gs.countP (fun o => o.isSome)) :=
  ⟨detail_lengths ds, instructor_lengths gs⟩

/-! ### Claim theorems: page fetcher (C5) -/

/-- C5: for every environment, `fetch_course_links` closes the browser
on its exit path, returns the failure marker `none` whenever any of the
navigation / load-wait / capture steps raises, and returns the captured
page content when none of them does — an exception never propagates out
of the call. -/
theorem c5_fetch_never_raises_and_releases (e : FetchEnv) :
    (fetch_course_links e).2 = true
    ∧ ((e.gotoRaises = true ∨ e.waitRaises = true ∨ e.contentRaises = true) →
        (fetch_course_links e).1 = none)
    ∧ (e.gotoRaises = false → e.waitRaises = false → e.contentRaises = false →
        (fetch_course_links e).1 = some e.pageHtml) := by
  rcases e with ⟨g, w, c, html⟩
  cases g <;> cases w <;> cases c <;>
    simp [fetch_course_links, fetchTryBody]

/-- Witness for C5 at a concrete environment: a timeout while waiting
for the page to load yields the failure marker and a closed browser. -/
theorem c5_witness :
    (fetch_course_links ⟨false, true, false, "page"⟩).1 = none
    ∧ (fetch_course_links ⟨false, true, false, "page"⟩).2 = true :=
  ⟨(c5_fetch_never_raises_and_releases ⟨false, true, false, "page"⟩).2.1
      (Or.inr (Or.inl rfl)),
   (c5_fetch_never_raises_and_releases ⟨false, true, false, "page"⟩).1⟩

/-! ### Claim theorems: novelty filter (C6, C7, C9) -/

/-- C6: when `compare_data_db` returns rows, they form a subsequence of
the candidate batch (original order preserved), and a candidate row is
emitted iff no persisted url is string-equal to its url. -/
theorem c6_novelty_filter (db : List String) (cand out : List CourseLinkRow)
    (h : compare_data_db db cand = CompareOutcome.result out) :
    out.Sublist cand
    ∧ ∀ r, r ∈ cand → (r ∈ out ↔ ¬ r.url ∈ db) := by
  unfold compare_data_db at h
  by_cases hc : cand.isEmpty
  · rw [if_pos hc] at h
    exact absurd h (by simp)
  · rw [if_neg hc] at h
    by_cases hf : (cand.filter (fun r => !(db.contains r.url))).isEmpty
    · rw [if_pos hf] at h
      exact absurd h (by simp)
    · rw [if_neg hf] at h
      obtain rfl : cand.filter (fun r => !(db.contains r.url)) = out := by
        simpa using h
      refine ⟨List.filter_sublist cand, fun r hr => ?_⟩
      simp [List.mem_filter, hr]

/-- Witness for C6 at a concrete database and batch: with
`"https://a"` persisted, of the candidates `a, b` only `b` is emitted,
and it is a subsequence of the batch. -/
theorem c6_witness :
    ([⟨"https://b", "e"⟩] : List CourseLinkRow).Sublist
      [⟨"https://a", "e"⟩, ⟨"https://b", "e"⟩] :=
  (c6_novelty_filter ["https://a"] [⟨"https://a", "e"⟩, ⟨"https://b", "e"⟩]
    [⟨"https://b", "e"⟩] rfl).1

/-- C7: an empty candidate batch, or a batch in which nothing is novel,
makes `compare_data_db` terminate the run early with exit code `0`
(Python `exit()` raises `SystemExit` with code `0`, a normal
termination) after an info-level log line, not an error; otherwise the
novel rows are returned. -/
theorem c7_empty_or_no_novel_clean_exit
    (db : List String) (cand : List CourseLinkRow) :
    (cand = [] →
      compare_data_db db cand
        = CompareOutcome.earlyExit 0 "*** No new data to insert ***")
    ∧ (cand.filter (fun r => !(db.contains r.url)) = [] →
      compare_data_db db cand
        = CompareOutcome.earlyExit 0 "*** No new data to insert ***")
    ∧ (cand.filter (fun r => !(db.contains r.url)) ≠ [] →
      compare_data_db db cand
        = CompareOutcome.result
            (cand.filter (fun r => !(db.contains r.url)))) := by
  refine ⟨fun h => by subst h; rfl, fun h => ?_, fun h => ?_⟩
  · unfold compare_data_db
    by_cases hc : cand.isEmpty
    · rw [if_pos hc]
    · rw [if_neg hc, if_pos (List.isEmpty_iff.mpr h)]
  · have hc : ¬ (cand.isEmpty = true) := by
      intro hc
      exact h (by simp [List.isEmpty_iff.mp hc])
    unfold compare_data_db
    rw [if_neg hc, if_neg (by simpa [List.isEmpty_iff] using h)]

/-- Witness for C7: the empty batch exits cleanly with code `0`. -/
theorem c7_witness :
    compare_data_db [] []
      = CompareOutcome.earlyExit 0 "*** No new data to insert ***" :=
  (c7_empty_or_no_novel_clean_exit [] []).1 rfl

/-- C9, counterexample.  The claim says the post-filter course-link
collection is unique by url within a run.  But the filter only removes
urls already persisted; nothing deduplicates the batch itself.  Parsing
two search pages that both list `/course/a` (the same course appearing
on two result pages of the same run) yields the same url twice, and
against an empty database `compare_data_db` emits both copies: the
post-filter collection holds equal urls at the two distinct positions
`0` and `1`. -/
theorem c9_counterexample :
    start_parse_course_links
        [some ⟨some "results for “chatgpt”", [some "/course/a"]⟩,
         some ⟨some "results for “chatgpt”", [some "/course/a"]⟩]
      = Except.ok
          (["https://www.udemy.com/course/a", "https://www.udemy.com/course/a"],
           ["chatgpt", "chatgpt"])
    ∧ compare_data_db []
        [⟨"https://www.udemy.com/course/a", "chatgpt"⟩,
         ⟨"https://www.udemy.com/course/a", "chatgpt"⟩]
      = CompareOutcome.result
          [⟨"https://www.udemy.com/course/a", "chatgpt"⟩,
           ⟨"https://www.udemy.com/course/a", "chatgpt"⟩]
    ∧ (([⟨"https://www.udemy.com/course/a", "chatgpt"⟩,
         ⟨"https://www.udemy.com/course/a", "chatgpt"⟩] :
          List CourseLinkRow).getD 0 ⟨"", ""⟩).url
      = (([⟨"https://www.udemy.com/course/a", "chatgpt"⟩,
           ⟨"https://www.udemy.com/course/a", "chatgpt"⟩] :
            List CourseLinkRow).getD 1 ⟨"", ""⟩).url :=
  ⟨rfl, rfl, rfl⟩

/-- C9 as amended: the post-filter collection is novel with respect to
the persisted table — no emitted row's url equals any persisted url —
but uniqueness *within* the batch is not enforced: duplicate urls in
the candidate batch of a single run survive the filter (see the
counterexample). -/
theorem c9_amended_unique_only_vs_db
    (db : List String) (cand out : List CourseLinkRow)
    (h : compare_data_db db cand = CompareOutcome.result out) :
    ∀ r, r ∈ out → r.url ∉ db := by
  unfold compare_data_db at h
  by_cases hc : cand.isEmpty
  · rw [if_pos hc] at h
    exact absurd h (by simp)
  · rw [if_neg hc] at h
    by_cases hf : (cand.filter (fun r => !(db.contains r.url))).isEmpty
    · rw [if_pos hf] at h
      exact absurd h (by simp)
    · rw [if_neg hf] at h
      obtain rfl : cand.filter (fun r => !(db.contains r.url)) = out := by
        simpa using h
      intro r hr
      simpa using (List.mem_filter.mp hr).2

/-- Witness for C9's amended claim at a concrete run. -/
theorem c9_amended_witness :
    ("https://y" : String) ∉ (["https://x"] : List String) :=
  c9_amended_unique_only_vs_db ["https://x"] [⟨"https://y", "e"⟩]
    [⟨"https://y", "e"⟩] rfl ⟨"https://y", "e"⟩ (by simp)

/-! ### Claim theorems: merge step (C3) -/

/-- Row-wise gluing of three equal-length tables has one row per input
row. -/
lemma zipWith3_prod_length {α β γ : Type} (c : List α) (d : List β)
    (i : List γ) (h1 : c.length = d.length) (h2 : d.length = i.length) :
    (List.zipWith3 (fun a b g => (a, b, g)) c d i).length = c.length := by
  induction c generalizing d i with
  | nil => simp [List.zipWith3]
  | cons a as ih =>
    cases d with
    | nil => simp at h1
    | cons b bs =>
      cases i with
      | nil => simp at h2
      | cons g gs =>
        simp only [List.zipWith3, List.length_cons] at h1 h2 ⊢
        exact congrArg Nat.succ (ih bs gs (by omega) (by omega))

/-- Row `k` of the glued table is the triple of the rows `k` of the
three inputs. -/
lemma zipWith3_prod_getD {α β γ : Type} (c : List α) (d : List β)
    (i : List γ) (k : ℕ) (a0 : α) (b0 : β) (g0 : γ)
    (hk : k < c.length) (h1 : c.length = d.length)
    (h2 : d.length = i.length) :
    (List.zipWith3 (fun a b g => (a, b, g)) c d i).getD k (a0, b0, g0)
      = (c.getD k a0, d.getD k b0, i.getD k g0) := by
  induction c generalizing d i k with
  | nil => simp at hk
  | cons a as ih =>
    cases d with
    | nil => simp at h1
    | cons b bs =>
      cases i with
      | nil => simp at h2
      | cons g gs =>
        cases k with
        | zero => simp [List.zipWith3]
        | succ k =>
          simp only [List.zipWith3, List.getD_cons_succ]
          exact ih bs gs k (by simpa using hk) (by simpa using h1)
            (by simpa using h2)

/-- C3: the merge step of `main_script` persists the three individual
tables unconditionally; when the three lengths agree it persists the
row-wise (positional) concatenation of the three collections — row `k`
of the merged table combines row `k` of each input — and reports no
alignment error; when they disagree it persists no merged row and
reports the alignment error carrying the three lengths. -/
theorem c3_merge_alignment {α β γ : Type} (c : List α) (d : List β)
    (i : List γ) :
    (main_script_merge c d i).coursePersisted = c
    ∧ (main_script_merge c d i).detailPersisted = d
    ∧ (main_script_merge c d i).instrPersisted = i
    ∧ ((c.length = d.length ∧ d.length = i.length) →
        (main_script_merge c d i).alignmentError = none
        ∧ (main_script_merge c d i).mergedPersisted
            = some (List.zipWith3 (fun a b g => (a, b, g)) c d i)
        ∧ (List.zipWith3 (fun a b g => (a, b, g)) c d i).length = c.length
        ∧ ∀ (k : ℕ) (a0 : α) (b0 : β) (g0 : γ), k < c.length →
            (List.zipWith3 (fun a b g => (a, b, g)) c d i).getD k (a0, b0, g0)
              = (c.getD k a0, d.getD k b0, i.getD k g0))
    ∧ (¬ (c.length = d.length ∧ d.length = i.length) →
        (main_script_merge c d i).mergedPersisted = none
        ∧ (main_script_merge c d i).alignmentError
            = some (c.length, d.length, i.length)) := by
  by_cases heq : c.length = d.length ∧ d.length = i.length
  · have hm : main_script_merge c d i
        = { coursePersisted := c, detailPersisted := d, instrPersisted := i,
            mergedPersisted :=
              some (List.zipWith3 (fun a b g => (a, b, g)) c d i),
            alignmentError := none } := by
      unfold main_script_merge
      rw [if_pos heq]
    rw [hm]
    exact ⟨rfl, rfl, rfl,
      fun _ => ⟨rfl, rfl, zipWith3_prod_length c d i heq.1 heq.2,
        fun k a0 b0 g0 hk =>
          zipWith3_prod_getD c d i k a0 b0 g0 hk heq.1 heq.2⟩,
      fun hne => absurd heq hne⟩
  · have hm : main_script_merge c d i
        = { coursePersisted := c, detailPersisted := d, instrPersisted := i,
            mergedPersisted := none,
            alignmentError := some (c.length, d.length, i.length) } := by
      unfold main_script_merge
      rw [if_neg heq]
    rw [hm]
    exact ⟨rfl, rfl, rfl, fun hpos => absurd hpos heq, fun _ => ⟨rfl, rfl⟩⟩

/-- Witness for C3: a `1/1/1` run merges the single rows, a `2/1/1`
run reports the alignment error and merges nothing. -/
theorem c3_witness :
    (main_script_merge ([10] : List ℕ) ([20] : List ℕ)
        ([30] : List ℕ)).alignmentError = none
    ∧ (main_script_merge ([1, 2] : List ℕ) ([3] : List ℕ)
        ([4] : List ℕ)).mergedPersisted = none
    ∧ (main_script_merge ([1, 2] : List ℕ) ([3] : List ℕ)
        ([4] : List ℕ)).alignmentError = some (2, 1, 1) :=
  ⟨((c3_merge_alignment [10] [20] [30]).2.2.2.1 (by decide)).1,
   ((c3_merge_alignment [1, 2] [3] [4]).2.2.2.2 (by decide)).1,
   ((c3_merge_alignment [1, 2] [3] [4]).2.2.2.2 (by decide)).2⟩

/-! ### Claim theorems: bounded fetch coordinator (C1) -/

/-- Playing completion events never changes the number of slots. -/
lemma completeAll_length (f : ℕ → Option String) (order : List ℕ)
    (slots : List (Option (Option String))) :
    (completeAll f order slots).length = slots.length := by
  induction order generalizing slots with
  | nil => rfl
  | cons j rest ih =>
    show (completeAll f rest (slots.set j (some (f j)))).length = slots.length
    rw [ih (slots.set j (some (f j))), List.length_set]

/-- A slot whose task never completes keeps its value. -/
lemma completeAll_getElem_not_mem (f : ℕ → Option String) (order : List ℕ)
    (slots : List (Option (Option String))) (i : ℕ) (h : i ∉ order) :
    (completeAll f order slots)[i]? = slots[i]? := by
  induction order generalizing slots with
  | nil => rfl
  | cons j rest ih =>
    show (completeAll f rest (slots.set j (some (f j))))[i]? = slots[i]?
    rw [ih (slots.set j (some (f j))) (fun hm => h (List.mem_cons_of_mem _ hm)),
      List.getElem?_set_ne
        (fun hji => h (by rw [← hji]; exact List.mem_cons_self _ _))]

/-- A slot whose task completes holds that task's own outcome,
whatever the order of the other completions. -/
lemma completeAll_getElem_mem (f : ℕ → Option String) (order : List ℕ)
    (slots : List (Option (Option String))) (i : ℕ) (hm : i ∈ order)
    (hi : i < slots.length) :
    (completeAll f order slots)[i]? = some (some (f i)) := by
  induction order generalizing slots with
  | nil => simp at hm
  | cons j rest ih =>
    show (completeAll f rest (slots.set j (some (f j))))[i]? = some (some (f i))
    by_cases hr : i ∈ rest
    · exact ih (slots.set j (some (f j))) hr (by simpa using hi)
    · have hij : i = j := by
        rcases List.mem_cons.mp hm with h | h
        · exact h
        · exact absurd h hr
      subst hij
      rw [completeAll_getElem_not_mem f rest _ i hr,
        List.getElem?_set_self hi]

/-- C1: for every url list of length `K` and every completion order of
the individual fetches (any permutation of the `K` task indices), the
result list of `start_analysis_page_links` has length `K`, and the slot
at position `i` holds exactly the outcome — page content or failure
marker — of fetching the url at input position `i`. -/
theorem c1_results_match_input_positions (urls : List String)
    (env : ℕ → String → FetchEnv) (order : List ℕ)
    (h : order.Perm (List.range urls.length)) :
    (start_analysis_page_links urls env order).length = urls.length
    ∧ ∀ i, i < urls.length →
        (start_analysis_page_links urls env order)[i]?
          = some (some ((fetch_course_links (env i (urls.getD i ""))).1)) := by
  constructor
  · show (completeAll (taskOutcome env urls) order
        (List.replicate urls.length none)).length = urls.length
    rw [completeAll_length, List.length_replicate]
  · intro i hi
    have hm : i ∈ order := h.mem_iff.mpr (List.mem_range.mpr hi)
    show (completeAll (taskOutcome env urls) order
        (List.replicate urls.length none))[i]? = _
    rw [completeAll_getElem_mem (taskOutcome env urls) order _ i hm
      (by simpa using hi)]
    rfl

/-- Witness for C1 at a concrete two-url batch whose second fetch
completes before the first. -/
theorem c1_witness :
    ([1, 0] : List ℕ).Perm (List.range 2)
    ∧ (start_analysis_page_links ["u", "v"]
        (fun _ s => ⟨false, false, false, s⟩) [1, 0]).length = 2
    ∧ (start_analysis_page_links ["u", "v"]
        (fun _ s => ⟨false, false, false, s⟩) [1, 0])[0]?
        = some (some (some "u")) :=
  ⟨by decide,
   (c1_results_match_input_positions ["u", "v"]
      (fun _ s => ⟨false, false, false, s⟩) [1, 0] (by decide)).1,
   (c1_results_match_input_positions ["u", "v"]
      (fun _ s => ⟨false, false, false, s⟩) [1, 0] (by decide)).2 0
      (by decide)⟩

/-! ### Claim theorems: admission gate (C8) -/

/-- Overwriting an element the predicate rejects with one it accepts
raises the count by one. -/
lemma countP_set_true {α : Type} (p : α → Bool) (l : List α) (i : ℕ)
    (v : α) (h : i < l.length) (hold : p (l.get ⟨i, h⟩) = false)
    (hv : p v = true) :
    (l.set i v).countP p = l.countP p + 1 := by
  induction l generalizing i with
  | nil => simp at h
  | cons a as ih =>
    cases i with
    | zero =>
      simp only [List.get] at hold
      simp [List.countP_cons, hv, hold]
    | succ i =>
      simp only [List.get] at hold
      simp only [List.set, List.countP_cons,
        ih i (by simpa using h) hold]
      omega

/-- Overwriting an element the predicate accepts with one it rejects
lowers the count by one. -/
lemma countP_set_false {α : Type} (p : α → Bool) (l : List α) (i : ℕ)
    (v : α) (h : i < l.length) (hold : p (l.get ⟨i, h⟩) = true)
    (hv : p v = false) :
    l.countP p = (l.set i v).countP p + 1 := by
  induction l generalizing i with
  | nil => simp at h
  | cons a as ih =>
    cases i with
    | zero =>
      simp only [List.get] at hold
      simp [List.countP_cons, hv, hold]
    | succ i =>
      simp only [List.get] at hold
      simp only [List.set, List.countP_cons,
        ih i (by simpa using h) hold]
      omega

/-- C8: in every state a batch run with cap `n` can reach, at most `n`
fetches are simultaneously in flight, and the permits are conserved —
the free permits plus the in-flight fetches always account for exactly
the `n` permits of the semaphore, so no slot is ever leaked: every
admitted fetch gave up a permit and every finished fetch, successful or
failed, returned it. -/
theorem c8_inflight_bounded_by_cap (n k : ℕ) (s : SemState)
    (h : SemReachable n k s) :
    inflightCount s ≤ n ∧ s.avail + inflightCount s = n := by
  have key : s.avail + inflightCount s = n := by
    induction h with
    | init =>
      have hz : inflightCount (initState n k) = 0 := by
        refine List.countP_eq_zero.mpr (fun a ha => ?_)
        have := List.eq_of_mem_replicate ha
        subst this
        simp
      rw [hz]
      simp [initState]
    | step hr hstep ih =>
      rename_i s1 s2
      unfold inflightCount at ih
      cases hstep with
      | acquire t hlt hp ha =>
        have hcount :
            (s1.tasks.set t TaskPhase.inflight).countP
                (fun x => x = TaskPhase.inflight)
              = s1.tasks.countP (fun x => x = TaskPhase.inflight) + 1 :=
          countP_set_true _ s1.tasks t TaskPhase.inflight hlt
            (by simp only [List.get_eq_getElem] at hp; simp [hp]) (by simp)
        show s1.avail - 1
            + (s1.tasks.set t TaskPhase.inflight).countP
                (fun x => x = TaskPhase.inflight) = n
        rw [hcount]
        omega
      | finish t hlt hp =>
        have hcount :
            s1.tasks.countP (fun x => x = TaskPhase.inflight)
              = (s1.tasks.set t TaskPhase.done).countP
                  (fun x => x = TaskPhase.inflight) + 1 :=
          countP_set_false _ s1.tasks t TaskPhase.done hlt
            (by simp only [List.get_eq_getElem] at hp; simp [hp]) (by simp)
        show s1.avail + 1
            + (s1.tasks.set t TaskPhase.done).countP
                (fun x => x = TaskPhase.inflight) = n
        omega
  exact ⟨by omega, key⟩

/-- Witness for C8: with cap `1` and two tasks, the state reached by
admitting task `0` has one fetch in flight — within the cap — and the
permit accounting holds. -/
theorem c8_witness :
    inflightCount ⟨0, [TaskPhase.inflight, TaskPhase.pending]⟩ ≤ 1
    ∧ (0 : ℕ)
        + inflightCount ⟨0, [TaskPhase.inflight, TaskPhase.pending]⟩ = 1 :=
  c8_inflight_bounded_by_cap 1 2 _
    (SemReachable.step SemReachable.init
      (SemStep.acquire (initState 1 2) 0 (by decide) (by decide) (by decide)))

end UdemyScraper
